import Mathlib

/-!
Verification of the versioned-settings persistence library
(`settings.py` + `manager.py`).

The embedding models:
  * a settings snapshot (a Python dict decoded from JSON) as an
    association list `Data` from string keys to integer values, in
    insertion order, with Python dict assignment semantics (`dset`);
  * the migrate chain `BaseSettings.migrate` / `SettingsV1.migrate` /
    `SettingsV2.migrate` as functions `Data → Except Err Data`, where an
    `Except.error` is a raised Python exception;
  * `BaseSettings.load` / `save`, `Manager.load_from_file` and
    `Manager.load` over an explicit file-system state `FS`;
  * the candidate scan of `Manager.load`, including the
    `re.search("settings-(\\d+)", name)` key extraction and the
    stable ascending sort followed by `reverse`.

All field values appearing in this repository's schemas are integers
(`pykson.IntegerField`), so snapshot values are modelled as `Int`.
-/

namespace SettingsMagic

/-- A decoded JSON settings snapshot: a Python dict with string keys and
integer values, kept in insertion order. -/
abbrev Data := List (String × Int)

/-- Python `d[k]` read (as `Option`): the value at the first occurrence of
`k`, if any. -/
def dget : Data → String → Option Int
  | [], _ => none
  | (k, v) :: d, k2 => if k = k2 then some v else dget d k2

/-- Python `k in d.keys()`. -/
def dcontains : Data → String → Bool
  | [], _ => false
  | (k, _) :: d, k2 => k = k2 || dcontains d k2

/-- Replace the value stored under `k` at every occurrence, keeping positions. -/
def dsetAll : Data → String → Int → Data
  | [], _, _ => []
  | (k, v) :: d, k2, v2 => (if k = k2 then (k2, v2) else (k, v)) :: dsetAll d k2 v2

/-- Python `d[k] = v`: overwrite in place if the key is present, otherwise
append the new key at the end (dict insertion order). -/
def dset (d : Data) (k : String) (v : Int) : Data :=
  if dcontains d k then dsetAll d k v else d ++ [(k, v)]

/-- The exceptions the two modules can raise.  In Python all of them are
`RuntimeError` (or built-in exceptions) distinguished only by message; here
each gets a constructor. -/
inductive Err where
  /-- `RuntimeError("Settings file does not exist: ...")` (settings.py:35). -/
  | fileNotFound : Err
  /-- `json.load` failure on a file that is not valid JSON. -/
  | jsonDecode : Err
  /-- `RuntimeError("Settings file does not appears to contain a valid settings format...")`
  (settings.py:42), raised when the `VERSION` key is absent. -/
  | malformed : Err
  /-- `RuntimeError("Settings file contains invalid version number")` (settings.py:49). -/
  | invalidVersion : Err
  /-- `RuntimeError("Settings file comes from a future settings version...")` (settings.py:52). -/
  | fromTheFuture : Err
  /-- Python `KeyError` from `data["VERSION"]` on a dict without that key. -/
  | keyError : Err
  /-- `RuntimeError("Migrate function from base class was called...")` (settings.py:24). -/
  | baseMigrate : Err
  /-- `RuntimeError("Migrate chain failed to update to the latest settings version available")`
  (settings.py:61). -/
  | chainFail : Err
  /-- Python `AttributeError` from `re.search(...).group(1)` when `re.search` returned `None`
  (manager.py:230). -/
  | attributeError : Err
deriving Repr, DecidableEq

/-- The in-memory attributes of a `SettingsV2` instance (the current schema,
version 2): `VERSION`, `new_variable` (introduced at version 1),
`new_variable_dosh` (introduced at version 2). -/
structure Inst where
  VERSION : Int
  new_variable : Int
  new_variable_dosh : Int
deriving Repr, DecidableEq

namespace BaseSettings

/-- `BaseSettings.migrate` (settings.py:17-26): always raises — reached only
when the migrate chain is exhausted. -/
def migrate (_ : Data) : Except Err Data := .error .baseMigrate

end BaseSettings

namespace SettingsV1

/-- `SettingsV1.VERSION` (settings.py:88). -/
def VERSION : Int := 1

/-- `SettingsV1.migrate` (settings.py:96-104).  `selfNewVariable` is the
value of `self.new_variable` on the instance the method is invoked on
(its default, `1`, for a freshly constructed instance). -/
def migrate (selfNewVariable : Int) (data : Data) : Except Err Data :=
  match dget data "VERSION" with
  | none => .error .keyError
  | some v =>
    if v = SettingsV1.VERSION then .ok data
    else
      match (if v < SettingsV1.VERSION then BaseSettings.migrate data else .ok data) with
      | .error e => .error e
      | .ok d2 => .ok (dset (dset d2 "VERSION" SettingsV1.VERSION) "new_variable" selfNewVariable)

end SettingsV1

namespace SettingsV2

/-- `SettingsV2.VERSION` (settings.py:108). -/
def VERSION : Int := 2

/-- `SettingsV2.migrate` (settings.py:116-121).  Unlike `SettingsV1.migrate`
it has no early return when `data["VERSION"]` already equals its own
version: it always reassigns `VERSION` and `new_variable_dosh`. -/
def migrate (selfNewVariable selfNewVariableDosh : Int) (data : Data) : Except Err Data :=
  match dget data "VERSION" with
  | none => .error .keyError
  | some v =>
    match (if v < SettingsV2.VERSION then SettingsV1.migrate selfNewVariable data else .ok data) with
    | .error e => .error e
    | .ok d2 => .ok (dset (dset d2 "VERSION" SettingsV2.VERSION) "new_variable_dosh" selfNewVariableDosh)

end SettingsV2

/-- What a file on disk holds: either a JSON object of integer fields, or
content that `json.load` fails on. -/
inductive FileContent where
  | json : Data → FileContent
  | invalid : FileContent
deriving Repr, DecidableEq

/-- A file path, split as (directory, file name); the directory plays the
role of `file_path.parent`. -/
abbrev FPath := String × String

/-- The file-system state: the existing files with their contents, and the
set of existing directories. -/
structure FS where
  files : List (FPath × FileContent)
  dirs : List String
deriving Repr, DecidableEq

/-- `file_path.exists()`. -/
def fileExists (fs : FS) (p : FPath) : Bool := fs.files.any (fun e => e.fst = p)

/-- Content of the file at `p`, if it exists. -/
def fileGetOpt (fs : FS) (p : FPath) : Option FileContent :=
  (fs.files.find? (fun e => e.fst = p)).map (fun e => e.snd)

/-- Content of the file at `p`; only used after an existence check. -/
def fileGetD (fs : FS) (p : FPath) : FileContent := (fileGetOpt fs p).getD .invalid

/-- `open(p, "w")` followed by a full write: overwrite in place, or create. -/
def fileWrite (fs : FS) (p : FPath) (c : FileContent) : FS :=
  if fileExists fs p then
    { fs with files := fs.files.map (fun e => if e.fst = p then (p, c) else e) }
  else
    { fs with files := fs.files ++ [(p, c)] }

/-- `os.listdir(d)`: the names of the files in directory `d` (in file-system
order; `os.listdir`'s order is unspecified in Python). -/
def listdir (fs : FS) (d : String) : List String :=
  (fs.files.filter (fun e => e.fst.fst = d)).map (fun e => e.fst.snd)

/-- A settings class (`settings_type` in `manager.py`): its class `VERSION`,
its `migrate` method (closed over the invoking instance, which supplies the
field values assigned by a migration step), the `Pykson().from_json` /
`Pykson().to_json` (de)serializers for it, and a freshly constructed
(default-valued) instance. -/
structure Schema where
  curVersion : Int
  migrateFn : Inst → Data → Except Err Data
  fromJsonFn : Data → Inst
  toJsonFn : Inst → Data
  defaultInst : Inst

namespace BaseSettings

/-- The body of the `try:` block of `BaseSettings.load` (settings.py:37-67),
for an instance `self` of schema `s`, applied to the content of an existing
file.  On success it returns the final state of the decoded dict `result`
and the new instance produced by `Pykson().from_json` (which
`self.__dict__.update(new.__dict__)` copies wholesale onto `self`). -/
def loadBody (s : Schema) (self : Inst) (content : FileContent) : Except Err (Data × Inst) :=
  match content with
  | .invalid => .error .jsonDecode
  | .json result =>
    match dget result "VERSION" with
    | none => .error .malformed
    | some version =>
      if version = 0 then .error .invalidVersion
      else if version > s.curVersion then .error .fromTheFuture
      else
        match (if version < s.curVersion then s.migrateFn self result else .ok result) with
        | .error e => .error e
        | .ok result2 =>
          match dget result2 "VERSION" with
          | none => .error .keyError
          | some v2 =>
            if v2 ≠ s.curVersion then .error .chainFail
            else .ok (result2, s.fromJsonFn result2)

/-- `BaseSettings.load` (settings.py:28-70).  The existence check is outside
the `try:` and raises; everything inside the `try:` is caught by
`except Exception as exception: print(...)` — the result carries the
instance after the call together with the printed (swallowed) exception,
if any. -/
def load (s : Schema) (self : Inst) (fs : FS) (p : FPath) : Except Err (Inst × Option Err) :=
  if fileExists fs p then
    match loadBody s self (fileGetD fs p) with
    | .ok r => .ok (r.snd, none)
    | .error e => .ok (self, some e)
  else .error .fileNotFound

/-- `BaseSettings.save` (settings.py:72-84): create the parent directory if
missing, then serialize the instance to the file. -/
def save (s : Schema) (self : Inst) (fs : FS) (p : FPath) : FS :=
  let fs1 := if p.fst ∈ fs.dirs then fs else { fs with dirs := fs.dirs ++ [p.fst] }
  fileWrite fs1 p (.json (s.toJsonFn self))

end BaseSettings

/-- A freshly constructed `SettingsV2()`: `VERSION = 2` (set in `__init__`),
`new_variable` and `new_variable_dosh` at their declared defaults, both `1`
(settings.py:89,109). -/
def settingsV2Default : Inst := { VERSION := 2, new_variable := 1, new_variable_dosh := 1 }

/-- `Pykson().from_json(result, SettingsV2)`: build an instance from the
dict, using each field's declared default when its key is absent. -/
def v2FromJson (d : Data) : Inst :=
  { VERSION := (dget d "VERSION").getD 0
    new_variable := (dget d "new_variable").getD 1
    new_variable_dosh := (dget d "new_variable_dosh").getD 1 }

/-- `Pykson().to_json(self)` for a `SettingsV2` instance, fields in
declaration order. -/
def v2ToJson (i : Inst) : Data :=
  [("VERSION", i.VERSION), ("new_variable", i.new_variable),
   ("new_variable_dosh", i.new_variable_dosh)]

/-- The `SettingsV2` class as a `Schema`. -/
def v2Schema : Schema :=
  { curVersion := SettingsV2.VERSION
    migrateFn := fun self d => SettingsV2.migrate self.new_variable self.new_variable_dosh d
    fromJsonFn := v2FromJson
    toJsonFn := v2ToJson
    defaultInst := settingsV2Default }

/-- The characters of `Manager.SETTINGS_NAME_PREFIX`, `"settings-"`. -/
def settingsNameLit : List Char :=
  ['s', 'e', 't', 't', 'i', 'n', 'g', 's', '-']

/-- Strip the literal `lit` from the front of `cs`, or fail. -/
def dropLit : List Char → List Char → Option (List Char)
  | [], cs => some cs
  | _ :: _, [] => none
  | l :: ls, c :: cs => if c = l then dropLit ls cs else none

/-- `name.startswith("settings-")` (manager.py:228). -/
def startsWithName (n : String) : Bool := (dropLit settingsNameLit n.toList).isSome

/-- Split a leading run of decimal digits off a character list. -/
def digitRun : List Char → List Char × List Char
  | [] => ([], [])
  | c :: cs =>
    if c.isDigit then
      let r := digitRun cs
      (c :: r.fst, r.snd)
    else ([], c :: cs)

/-- Decimal value of a digit list (`int(...)` on the captured group). -/
def natOfDigits (acc : Nat) : List Char → Nat
  | [] => acc
  | c :: cs => natOfDigits (acc * 10 + (c.toNat - 48)) cs

/-- `re.search("settings-(\\d+)", x)` followed by `int(...group(1))`
(manager.py:230): the leftmost occurrence of the literal `settings-`
followed by at least one digit, capturing the maximal digit run; `none`
when the pattern matches nowhere (in Python, `re.search` returns `None`
and `.group(1)` then raises `AttributeError`). -/
def searchVersion : List Char → Option Nat
  | [] => none
  | c :: cs =>
    match dropLit settingsNameLit (c :: cs) with
    | some rest =>
      let r := digitRun rest
      if r.fst.isEmpty then searchVersion cs else some (natOfDigits 0 r.fst)
    | none => searchVersion cs

/-- Compute the sort key of every candidate name in list order; `none` as
soon as one name has no embedded version (CPython's `list.sort` computes
all keys first, so a key failure raises out of the sort). -/
def mapKeys : List String → Option (List (String × Nat))
  | [] => some []
  | n :: ns =>
    match searchVersion n.toList with
    | none => none
    | some k =>
      match mapKeys ns with
      | none => none
      | some r => some ((n, k) :: r)

/-- Stable insertion into an ascending-by-key list: an element from earlier
in the original list goes before later elements with an equal key, as in
Python's stable `list.sort`. -/
def insertAsc (x : String × Nat) : List (String × Nat) → List (String × Nat)
  | [] => [x]
  | y :: ys => if x.snd ≤ y.snd then x :: y :: ys else y :: insertAsc x ys

/-- Stable ascending sort by key (`valid_files.sort(key=...)`, manager.py:230). -/
def sortAsc : List (String × Nat) → List (String × Nat)
  | [] => []
  | x :: xs => insertAsc x (sortAsc xs)

/-- The `Manager`'s own state: its resolved `config_path` directory and the
cached `_settings` instance. -/
structure Manager where
  configPath : String
  cache : Option Inst
deriving Repr, DecidableEq

namespace Manager

/-- `Manager.settings_file_path()` (manager.py:187-193): the file name of
the canonical current-version settings file inside `config_path`. -/
def settings_file_name (s : Schema) : String :=
  "settings-" ++ toString s.curVersion ++ ".json"

/-- `Manager.load_from_file` (manager.py:195-215): construct a default
instance; if the file exists, `load` it (which swallows every exception
internally and leaves the instance at its defaults on failure), otherwise
`save` the defaults to the file.  Returns the instance, the file system
after the call, and the exception `load` printed, if any.  It never
raises: `BaseSettings.load`'s only raising path (non-existent file) is
guarded by the existence check here. -/
def load_from_file (s : Schema) (fs : FS) (p : FPath) : Inst × FS × Option Err :=
  if fileExists fs p then
    match BaseSettings.load s s.defaultInst fs p with
    | .ok r => (r.fst, fs, r.snd)
    | .error _ => (s.defaultInst, fs, none)  -- unreachable: the file exists
  else
    (s.defaultInst, BaseSettings.save s s.defaultInst fs p, none)

/-- The candidate names of `Manager.load` (manager.py:225-229): the files of
`config_path` whose name starts with `settings-`. -/
def candidateNames (fs : FS) (cfg : String) : List String :=
  (listdir fs cfg).filter (fun n => startsWithName n)

/-- The `for valid_file in valid_files:` loop of `Manager.load`
(manager.py:233-239).  In the source the loop body is
`try: self._settings = load_from_file(...); break
 except settings.SettingsFromTheFuture: ...` — but `load_from_file` never
raises (`BaseSettings.load` catches every exception internally and prints
it), and `settings.py` does not even define a class `SettingsFromTheFuture`,
so the `except` arm is dead and the loop always adopts the first candidate.
Returns `none` when the list is empty (the `for ... else:` arm runs). -/
def candidateLoop (s : Schema) (fs : FS) (cfg : String) :
    List (String × Nat) → Option (Inst × FS)
  | [] => none
  | f :: _ =>
    let r := load_from_file s fs (cfg, f.fst)
    some (r.fst, r.snd.fst)

/-- `Manager.load` (manager.py:221-241): list the files of `config_path`
with the `settings-` name start, compute each one's version key (raising
`AttributeError` inside `sort` if a name has none), sort ascending and
reverse, then run the candidate loop; if no candidate was adopted, fall
back to `load_from_file` on the canonical current-version path (which
creates it with defaults when absent). -/
def load (s : Schema) (m : Manager) (fs : FS) : Except Err (Manager × FS) :=
  match mapKeys (candidateNames fs m.configPath) with
  | none => .error .attributeError
  | some keyed =>
    match candidateLoop s fs m.configPath (sortAsc keyed).reverse with
    | some r => .ok ({ m with cache := some r.fst }, r.snd)
    | none =>
      let r := load_from_file s fs (m.configPath, settings_file_name s)
      .ok ({ m with cache := some r.fst }, r.snd.fst)

end Manager

/-! ### Helper lemmas about dict operations -/

theorem dget_of_dcontains_eq_false (d : Data) (k : String)
    (h : dcontains d k = false) : dget d k = none := by
  induction d with
  | nil => rfl
  | cons e d ih =>
    obtain ⟨k1, v1⟩ := e
    simp only [dcontains, Bool.or_eq_false_iff] at h
    simp only [dget]
    rw [if_neg (by simpa using h.1)]
    exact ih h.2

theorem dget_append_of_none (d1 d2 : Data) (k : String)
    (h : dget d1 k = none) : dget (d1 ++ d2) k = dget d2 k := by
  induction d1 with
  | nil => rfl
  | cons e d ih =>
    obtain ⟨k1, v1⟩ := e
    simp only [dget] at h ⊢
    by_cases hk : k1 = k
    · rw [if_pos hk] at h; exact absurd h (by simp)
    · rw [if_neg hk] at h ⊢
      exact ih h

theorem dget_dsetAll_self (d : Data) (k : String) (v : Int)
    (h : dcontains d k = true) : dget (dsetAll d k v) k = some v := by
  induction d with
  | nil => simp [dcontains] at h
  | cons e d ih =>
    obtain ⟨k1, v1⟩ := e
    simp only [dcontains, Bool.or_eq_true] at h
    simp only [dsetAll]
    by_cases hk : k1 = k
    · rw [if_pos hk]
      simp [dget]
    · rw [if_neg hk]
      simp only [dget]
      rw [if_neg hk]
      exact ih (by simpa [hk] using h)

theorem dget_dsetAll_other (d : Data) (k k2 : String) (v : Int)
    (h : k2 ≠ k) : dget (dsetAll d k v) k2 = dget d k2 := by
  induction d with
  | nil => rfl
  | cons e d ih =>
    obtain ⟨k1, v1⟩ := e
    simp only [dsetAll]
    by_cases hk : k1 = k
    · rw [if_pos hk]
      simp only [dget]
      rw [if_neg (fun hkk => h hkk.symm), if_neg (fun hkk => h (hkk.symm.trans hk))]
      exact ih
    · rw [if_neg hk]
      simp only [dget]
      by_cases hk2 : k1 = k2
      · rw [if_pos hk2, if_pos hk2]
      · rw [if_neg hk2, if_neg hk2]
        exact ih

theorem dget_dset_self (d : Data) (k : String) (v : Int) :
    dget (dset d k v) k = some v := by
  unfold dset
  by_cases h : dcontains d k = true
  · rw [if_pos h]
    exact dget_dsetAll_self d k v h
  · rw [if_neg h]
    rw [dget_append_of_none d [(k, v)] k
      (dget_of_dcontains_eq_false d k (by simpa using h))]
    simp [dget]

theorem dget_append_single_other (d : Data) (k k2 : String) (v : Int)
    (h : k2 ≠ k) : dget (d ++ [(k, v)]) k2 = dget d k2 := by
  induction d with
  | nil =>
    simp only [List.nil_append, dget]
    rw [if_neg (fun hkk => h hkk.symm)]
  | cons e d ih =>
    obtain ⟨k1, v1⟩ := e
    simp only [List.cons_append, dget]
    by_cases hk2 : k1 = k2
    · rw [if_pos hk2, if_pos hk2]
    · rw [if_neg hk2, if_neg hk2]
      exact ih

theorem dget_dset_other (d : Data) (k k2 : String) (v : Int) (h : k2 ≠ k) :
    dget (dset d k v) k2 = dget d k2 := by
  unfold dset
  by_cases hc : dcontains d k = true
  · rw [if_pos hc]
    exact dget_dsetAll_other d k k2 v h
  · rw [if_neg hc]
    exact dget_append_single_other d k k2 v h

/-! ### Helper lemmas about the file-system model and the scanner -/

theorem dirs_fileWrite (fs : FS) (p : FPath) (c : FileContent) :
    (fileWrite fs p c).dirs = fs.dirs := by
  unfold fileWrite
  split <;> rfl

theorem mem_dirs_save (s : Schema) (i : Inst) (fs : FS) (p : FPath) :
    p.fst ∈ (BaseSettings.save s i fs p).dirs := by
  unfold BaseSettings.save
  rw [dirs_fileWrite]
  by_cases h : p.fst ∈ fs.dirs
  · simp [h]
  · simp [h]

theorem files_fileWrite_absent (fs : FS) (p : FPath) (c : FileContent)
    (h : fileExists fs p = false) :
    (fileWrite fs p c).files = fs.files ++ [(p, c)] := by
  unfold fileWrite
  rw [if_neg (by simp [h])]

theorem find?_append_absent (l : List (FPath × FileContent)) (p : FPath)
    (c : FileContent) (h : l.any (fun e => e.fst = p) = false) :
    (l ++ [(p, c)]).find? (fun e => e.fst = p) = some (p, c) := by
  induction l with
  | nil => simp [List.find?]
  | cons e l ih =>
    simp only [List.any_cons, Bool.or_eq_false_iff] at h
    simp only [List.cons_append]
    rw [List.find?_cons_of_neg _ (by simp [h.1])]
    exact ih h.2

theorem fileGetOpt_write_absent (fs : FS) (p : FPath) (c : FileContent)
    (h : fileExists fs p = false) :
    fileGetOpt (fileWrite fs p c) p = some c := by
  unfold fileGetOpt
  rw [files_fileWrite_absent fs p c h, find?_append_absent fs.files p c h]
  rfl

theorem mem_listdir_of_fileExists (fs : FS) (d n : String)
    (h : fileExists fs (d, n) = true) : n ∈ listdir fs d := by
  unfold fileExists at h
  rw [List.any_eq_true] at h
  obtain ⟨e, he, hp⟩ := h
  have hp2 : e.fst = (d, n) := of_decide_eq_true hp
  unfold listdir
  apply List.mem_map.mpr
  refine ⟨e, List.mem_filter.mpr ⟨he, ?_⟩, by rw [hp2]⟩
  rw [hp2]
  exact decide_eq_true rfl

theorem mapKeys_eq_none_of_mem (l : List String) (n : String)
    (h : n ∈ l) (hn : searchVersion n.toList = none) : mapKeys l = none := by
  induction l with
  | nil => cases h
  | cons m l ih =>
    rcases List.mem_cons.mp h with rfl | hmem
    · have hn2 : searchVersion n.data = none := hn
      simp [mapKeys, hn2]
    · simp only [mapKeys, ih hmem]
      cases searchVersion m.toList <;> rfl

/-- Equation for `Manager.load` when the candidate scan is empty: the
`for ... else:` arm runs `load_from_file` on the canonical path. -/
theorem manager_load_of_no_candidates (s : Schema) (m : Manager) (fs : FS)
    (h : Manager.candidateNames fs m.configPath = []) :
    Manager.load s m fs =
      (let r := Manager.load_from_file s fs (m.configPath, Manager.settings_file_name s)
       .ok ({ m with cache := some r.fst }, r.snd.fst)) := by
  unfold Manager.load
  rw [h]
  rfl

/-- Computation of `SettingsV2.migrate` on data at version 1: the chain
delegates to `SettingsV1.migrate`, whose version-match early return leaves
the data unchanged, and then the version-2 step assigns `VERSION` and
`new_variable_dosh`. -/
theorem settingsV2_migrate_at_one (nv nvd : Int) (data : Data)
    (h : dget data "VERSION" = some 1) :
    SettingsV2.migrate nv nvd data =
      .ok (dset (dset data "VERSION" 2) "new_variable_dosh" nvd) := by
  unfold SettingsV2.migrate SettingsV1.migrate
  rw [h]
  norm_num [SettingsV1.VERSION, SettingsV2.VERSION]

/-- Computation of `SettingsV2.migrate` on data already at version 2: no
delegation, but the version-2 step still assigns `VERSION` and
`new_variable_dosh`. -/
theorem settingsV2_migrate_at_two (nv nvd : Int) (data : Data)
    (h : dget data "VERSION" = some 2) :
    SettingsV2.migrate nv nvd data =
      .ok (dset (dset data "VERSION" 2) "new_variable_dosh" nvd) := by
  unfold SettingsV2.migrate
  rw [h]
  norm_num [SettingsV2.VERSION]

/-- Computation of `SettingsV2.migrate` on data below version 1: the chain
reaches `BaseSettings.migrate`, which raises. -/
theorem settingsV2_migrate_below_one (nv nvd v : Int) (data : Data)
    (h : dget data "VERSION" = some v) (hv : v < 1) :
    SettingsV2.migrate nv nvd data = .error .baseMigrate := by
  unfold SettingsV2.migrate SettingsV1.migrate BaseSettings.migrate
  rw [h]
  have h1 : v ≠ SettingsV1.VERSION := by simp only [SettingsV1.VERSION]; omega
  have h2 : v < SettingsV1.VERSION := by simp only [SettingsV1.VERSION]; omega
  have h3 : v < SettingsV2.VERSION := by simp only [SettingsV2.VERSION]; omega
  simp only [if_pos h3, if_neg h1, if_pos h2]

/-! ### Claim theorems -/

/-- Claim C3, counterexample: the claim says the single migration step for
the target version leaves every pre-existing key of `data` untouched and
never overwrites an existing key's value; but on the version-1 dict
`{VERSION: 1, new_variable: 5, new_variable_dosh: 42}` (whose `VERSION` is
strictly below the target version 2), `SettingsV2.migrate` of a
default-valued instance overwrites the pre-existing key
`new_variable_dosh`, changing its value from `42` to `1`. -/
theorem claim_c3_counterexample :
    dget [("VERSION", 1), ("new_variable", 5), ("new_variable_dosh", 42)] "VERSION" = some 1 ∧
    (1 : Int) < 2 ∧
    SettingsV2.migrate 1 1 [("VERSION", 1), ("new_variable", 5), ("new_variable_dosh", 42)]
      = .ok [("VERSION", 2), ("new_variable", 5), ("new_variable_dosh", 1)] ∧
    dget [("VERSION", 1), ("new_variable", 5), ("new_variable_dosh", 42)] "new_variable_dosh"
      = some 42 ∧
    dget [("VERSION", 2), ("new_variable", 5), ("new_variable_dosh", 1)] "new_variable_dosh"
      = some 1 :=
  ⟨rfl, by norm_num, rfl, rfl, rfl⟩

/-- Claim C3, amended: on a data dict at version 1 (one below the target
version 2), the step sets `VERSION` to 2 and assigns the field newly
introduced at version 2 (`new_variable_dosh`) the invoking instance's value
for it — overwriting any pre-existing value under that key — while every
other key keeps its value and no key is removed; on a data dict whose
version is below 1, the chain fails with the base-class migration error
instead of performing a step. -/
theorem claim_c3_amended :
    (∀ (nv nvd : Int) (data : Data), dget data "VERSION" = some 1 →
      ∃ d2, SettingsV2.migrate nv nvd data = .ok d2 ∧
        dget d2 "VERSION" = some 2 ∧
        dget d2 "new_variable_dosh" = some nvd ∧
        (∀ k, k ≠ "VERSION" → k ≠ "new_variable_dosh" → dget d2 k = dget data k)) ∧
    (∀ (nv nvd v : Int) (data : Data), dget data "VERSION" = some v → v < 1 →
      SettingsV2.migrate nv nvd data = .error .baseMigrate) := by
  constructor
  · intro nv nvd data h
    refine ⟨dset (dset data "VERSION" 2) "new_variable_dosh" nvd,
      settingsV2_migrate_at_one nv nvd data h, ?_, ?_, ?_⟩
    · rw [dget_dset_other _ _ _ _ (by decide), dget_dset_self]
    · exact dget_dset_self _ _ _
    · intro k hk1 hk2
      rw [dget_dset_other _ _ _ _ hk2, dget_dset_other _ _ _ _ hk1]
  · intro nv nvd v data h hv
    exact settingsV2_migrate_below_one nv nvd v data h hv

/-- Claim C3, witness: the amended theorem applied at concrete inputs — a
version-1 dict migrated by an instance with `new_variable_dosh = 8`, and a
version-0 dict on which the chain fails. -/
theorem claim_c3_witness :
    (dget [("VERSION", 1), ("new_variable", 5)] "VERSION" = some 1 ∧
      (∃ d2, SettingsV2.migrate 9 8 [("VERSION", 1), ("new_variable", 5)] = .ok d2 ∧
        dget d2 "VERSION" = some 2 ∧
        dget d2 "new_variable_dosh" = some 8 ∧
        (∀ k, k ≠ "VERSION" → k ≠ "new_variable_dosh" →
          dget d2 k = dget [("VERSION", 1), ("new_variable", 5)] k))) ∧
    (dget [("VERSION", 0)] "VERSION" = some 0 ∧ (0 : Int) < 1 ∧
      SettingsV2.migrate 9 8 [("VERSION", 0)] = .error .baseMigrate) :=
  ⟨⟨rfl, claim_c3_amended.1 9 8 [("VERSION", 1), ("new_variable", 5)] rfl⟩,
   ⟨rfl, by norm_num, claim_c3_amended.2 9 8 0 [("VERSION", 0)] rfl (by norm_num)⟩⟩

/-- Claim C4, counterexample: the claim says invoking a version's migration
step on data already at that version is a no-op; but `SettingsV2.migrate`
(unlike `SettingsV1.migrate`, it has no early return) applied by a
default-valued instance to `{VERSION: 2, new_variable: 3,
new_variable_dosh: 42}` changes `new_variable_dosh` from `42` to `1`. -/
theorem claim_c4_counterexample :
    SettingsV2.migrate 1 1 [("VERSION", 2), ("new_variable", 3), ("new_variable_dosh", 42)]
      = .ok [("VERSION", 2), ("new_variable", 3), ("new_variable_dosh", 1)] ∧
    ([("VERSION", 2), ("new_variable", 3), ("new_variable_dosh", 42)] : Data)
      ≠ [("VERSION", 2), ("new_variable", 3), ("new_variable_dosh", 1)] :=
  ⟨rfl, by decide⟩

/-- Claim C4, amended: `SettingsV1.migrate` on data with `VERSION == 1` is a
genuine no-op (its early return leaves the dict unchanged);
`SettingsV2.migrate` on data with `VERSION == 2` leaves `VERSION` and every
key other than `new_variable_dosh` unchanged and removes no key, but
(re)assigns `new_variable_dosh` to the invoking instance's value — so it is
a no-op exactly when the dict's `new_variable_dosh` already equals that
value, not for every existing value. -/
theorem claim_c4_amended :
    (∀ (nv : Int) (data : Data), dget data "VERSION" = some 1 →
      SettingsV1.migrate nv data = .ok data) ∧
    (∀ (nv nvd : Int) (data : Data), dget data "VERSION" = some 2 →
      ∃ d2, SettingsV2.migrate nv nvd data = .ok d2 ∧
        dget d2 "new_variable_dosh" = some nvd ∧
        (∀ k, k ≠ "new_variable_dosh" → dget d2 k = dget data k)) := by
  constructor
  · intro nv data h
    unfold SettingsV1.migrate
    rw [h]
    norm_num [SettingsV1.VERSION]
  · intro nv nvd data h
    refine ⟨dset (dset data "VERSION" 2) "new_variable_dosh" nvd,
      settingsV2_migrate_at_two nv nvd data h, dget_dset_self _ _ _, ?_⟩
    intro k hk
    rw [dget_dset_other _ _ _ _ hk]
    by_cases hv : k = "VERSION"
    · rw [hv, dget_dset_self, h]
    · rw [dget_dset_other _ _ _ _ hv]

/-- Claim C4, witness: the amended theorem applied at concrete inputs — a
version-1 dict left unchanged by `SettingsV1.migrate`, and a version-2 dict
on which `SettingsV2.migrate` reassigns only `new_variable_dosh`. -/
theorem claim_c4_witness :
    (dget [("VERSION", 1), ("x", 9)] "VERSION" = some 1 ∧
      SettingsV1.migrate 7 [("VERSION", 1), ("x", 9)] = .ok [("VERSION", 1), ("x", 9)]) ∧
    (dget [("VERSION", 2), ("new_variable_dosh", 42)] "VERSION" = some 2 ∧
      (∃ d2, SettingsV2.migrate 7 6 [("VERSION", 2), ("new_variable_dosh", 42)] = .ok d2 ∧
        dget d2 "new_variable_dosh" = some 6 ∧
        (∀ k, k ≠ "new_variable_dosh" →
          dget d2 k = dget [("VERSION", 2), ("new_variable_dosh", 42)] k))) :=
  ⟨⟨rfl, claim_c4_amended.1 7 [("VERSION", 1), ("x", 9)] rfl⟩,
   ⟨rfl, claim_c4_amended.2 7 6 [("VERSION", 2), ("new_variable_dosh", 42)] rfl⟩⟩

/-- Claim C7: migrating the version-1 snapshot `{VERSION: 1, new_variable: 5}`
with the version-2 schema (invoked, as `BaseSettings.load` does, by a freshly
constructed default-valued `SettingsV2` instance) yields exactly
`{VERSION: 2, new_variable: 5, new_variable_dosh: 1}`, where `1` is the
declared version-2 default of `new_variable_dosh`: the old key's value is
preserved and the newly introduced key is added with its default. -/
theorem claim_c7 :
    SettingsV2.migrate settingsV2Default.new_variable settingsV2Default.new_variable_dosh
      [("VERSION", 1), ("new_variable", 5)]
      = .ok [("VERSION", 2), ("new_variable", 5), ("new_variable_dosh", 1)] ∧
    settingsV2Default.new_variable_dosh = 1 :=
  ⟨rfl, rfl⟩

/-- Claim C5: whenever the body of `BaseSettings.load` completes
successfully — i.e. the decoded data is adopted onto the instance — the
final data carries `VERSION` equal to the current schema's version, for any
schema and any migrate chain: the post-migration check
`if version != self.VERSION: raise` guarantees it.  (Failures of the body
are printed and swallowed by `load`'s `except` clause rather than
propagated — see claim C2 — but data is never adopted at a version other
than the current one.) -/
theorem claim_c5 (s : Schema) (self : Inst) (content : FileContent)
    (d : Data) (i : Inst)
    (h : BaseSettings.loadBody s self content = .ok (d, i)) :
    dget d "VERSION" = some s.curVersion := by
  unfold BaseSettings.loadBody at h
  cases content with
  | invalid => cases h
  | json result =>
    dsimp only at h
    cases hv : dget result "VERSION" with
    | none => rw [hv] at h; cases h
    | some version =>
      rw [hv] at h
      dsimp only at h
      by_cases h0 : version = 0
      · rw [if_pos h0] at h; cases h
      · rw [if_neg h0] at h
        by_cases hf : version > s.curVersion
        · rw [if_pos hf] at h; cases h
        · rw [if_neg hf] at h
          cases hm : (if version < s.curVersion then s.migrateFn self result
              else Except.ok result) with
          | error e => rw [hm] at h; cases h
          | ok result2 =>
            rw [hm] at h
            dsimp only at h
            cases hv2 : dget result2 "VERSION" with
            | none => rw [hv2] at h; cases h
            | some v2 =>
              rw [hv2] at h
              dsimp only at h
              by_cases hne : v2 ≠ s.curVersion
              · rw [if_pos hne] at h; cases h
              · rw [if_neg hne] at h
                cases h
                rw [hv2, not_ne_iff.mp hne]

/-- Claim C5, witness: a successful version-2 load adopts data whose
`VERSION` is the current schema version. -/
theorem claim_c5_witness :
    BaseSettings.loadBody v2Schema settingsV2Default
      (.json [("VERSION", 2), ("new_variable", 7), ("new_variable_dosh", 3)])
      = .ok ([("VERSION", 2), ("new_variable", 7), ("new_variable_dosh", 3)],
             { VERSION := 2, new_variable := 7, new_variable_dosh := 3 }) ∧
    dget [("VERSION", 2), ("new_variable", 7), ("new_variable_dosh", 3)] "VERSION"
      = some v2Schema.curVersion :=
  ⟨rfl, claim_c5 v2Schema settingsV2Default
    (.json [("VERSION", 2), ("new_variable", 7), ("new_variable_dosh", 3)]) _ _ rfl⟩

/-- Claim C9: for every existing file, `BaseSettings.load` returns normally
(the whole body sits in a `try`/`except Exception` that prints the
exception), and whenever an error occurred inside — parsing, validation or
migration — the instance's field values after the call are exactly the
values it had before the call. -/
theorem claim_c9 (s : Schema) (self : Inst) (fs : FS) (p : FPath)
    (h : fileExists fs p = true) :
    ∃ i lg, BaseSettings.load s self fs p = .ok (i, lg) ∧
      (lg.isSome = true → i = self) := by
  unfold BaseSettings.load
  rw [if_pos h]
  cases hb : BaseSettings.loadBody s self (fileGetD fs p) with
  | ok r => exact ⟨r.snd, none, rfl, by simp⟩
  | error e => exact ⟨self, some e, rfl, fun _ => rfl⟩

/-- Claim C9, witness: loading an existing file that `json.load` cannot
parse returns normally with the instance untouched. -/
theorem claim_c9_witness :
    fileExists { files := [(("cfg", "settings-2.json"), FileContent.invalid)], dirs := ["cfg"] }
      ("cfg", "settings-2.json") = true ∧
    (∃ i lg, BaseSettings.load v2Schema settingsV2Default
        { files := [(("cfg", "settings-2.json"), FileContent.invalid)], dirs := ["cfg"] }
        ("cfg", "settings-2.json") = .ok (i, lg) ∧
      (lg.isSome = true → i = settingsV2Default)) :=
  ⟨rfl, claim_c9 v2Schema settingsV2Default
    { files := [(("cfg", "settings-2.json"), FileContent.invalid)], dirs := ["cfg"] }
    ("cfg", "settings-2.json") rfl⟩

/-- Claim C1, evidence of the divergence: on a config directory holding
`settings-3.json` (version 3, from the future relative to current version
2) and `settings-1.json`, `Manager.load` does NOT fall back to the older
candidate.  The candidates are ordered 3-then-1, but the from-the-future
error of the first attempt is swallowed inside `BaseSettings.load` (it
never reaches the manager's `except settings.SettingsFromTheFuture` clause,
whose exception class `settings.py` does not even define), so the first
candidate "succeeds" with the instance left at its defaults and the loop
breaks: the cached active settings are the defaults
(`new_variable = 1`), not version 1's data migrated to version 2
(`new_variable = 5`) — even though, as the last conjunct shows, loading the
version-1 candidate would have succeeded with exactly that migrated data. -/
theorem claim_c1_evidence :
    Manager.load v2Schema { configPath := "cfg", cache := none }
      { files := [(("cfg", "settings-3.json"),
                    .json [("VERSION", 3), ("new_variable", 9), ("new_variable_dosh", 9)]),
                  (("cfg", "settings-1.json"), .json [("VERSION", 1), ("new_variable", 5)])],
        dirs := ["cfg"] }
      = .ok ({ configPath := "cfg", cache := some settingsV2Default },
             { files := [(("cfg", "settings-3.json"),
                           .json [("VERSION", 3), ("new_variable", 9), ("new_variable_dosh", 9)]),
                         (("cfg", "settings-1.json"), .json [("VERSION", 1), ("new_variable", 5)])],
               dirs := ["cfg"] }) ∧
    BaseSettings.load v2Schema settingsV2Default
      { files := [(("cfg", "settings-3.json"),
                    .json [("VERSION", 3), ("new_variable", 9), ("new_variable_dosh", 9)]),
                  (("cfg", "settings-1.json"), .json [("VERSION", 1), ("new_variable", 5)])],
        dirs := ["cfg"] }
      ("cfg", "settings-3.json") = .ok (settingsV2Default, some .fromTheFuture) ∧
    settingsV2Default.new_variable = 1 ∧
    BaseSettings.loadBody v2Schema settingsV2Default
      (.json [("VERSION", 1), ("new_variable", 5)])
      = .ok ([("VERSION", 2), ("new_variable", 5), ("new_variable_dosh", 1)],
             { VERSION := 2, new_variable := 5, new_variable_dosh := 1 }) :=
  ⟨rfl, rfl, rfl, rfl⟩

/-- Claim C2, evidence of the divergence: a candidate file with valid JSON
but no `VERSION` key raises the malformed-file error inside
`BaseSettings.load`'s `try:` block, but the blanket
`except Exception: print(...)` catches it — `load` returns normally with
the instance at its defaults and the error only printed — and
`Manager.load` completes successfully: the non-future error does not
propagate to the Manager's caller. -/
theorem claim_c2_evidence :
    BaseSettings.loadBody v2Schema settingsV2Default (.json [("foo", 5)])
      = .error .malformed ∧
    BaseSettings.load v2Schema settingsV2Default
      { files := [(("cfg", "settings-2.json"), .json [("foo", 5)])], dirs := ["cfg"] }
      ("cfg", "settings-2.json") = .ok (settingsV2Default, some .malformed) ∧
    Manager.load v2Schema { configPath := "cfg", cache := none }
      { files := [(("cfg", "settings-2.json"), .json [("foo", 5)])], dirs := ["cfg"] }
      = .ok ({ configPath := "cfg", cache := some settingsV2Default },
             { files := [(("cfg", "settings-2.json"), .json [("foo", 5)])], dirs := ["cfg"] }) :=
  ⟨rfl, rfl, rfl⟩

/-- Claim C6, evidence of the divergence: calling `BaseSettings.load`
directly on an existing file containing valid JSON without a `VERSION` key
does not raise to the caller: the malformed-file error is raised inside the
`try:` block and immediately caught by `except Exception: print(...)`, so
the call returns normally with the instance unchanged at its defaults and
the error merely printed. -/
theorem claim_c6_evidence :
    BaseSettings.load v2Schema settingsV2Default
      { files := [(("home", "conf.json"), .json [("new_variable", 5)])], dirs := ["home"] }
      ("home", "conf.json") = .ok (settingsV2Default, some .malformed) :=
  rfl

/-- Claim C8: when the config directory holds no file whose name starts
with `settings-`, `Manager.load` falls back to the canonical path
`settings-2.json` (current version 2), creates that file populated with the
schema's default field values — creating the parent directory if missing —
and caches a default-valued current-schema instance as the active
settings. -/
theorem claim_c8 (m : Manager) (fs : FS)
    (h : Manager.candidateNames fs m.configPath = []) :
    ∃ fs2, Manager.load v2Schema m fs
        = .ok ({ m with cache := some settingsV2Default }, fs2) ∧
      fileGetOpt fs2 (m.configPath, "settings-2.json")
        = some (.json [("VERSION", 2), ("new_variable", 1), ("new_variable_dosh", 1)]) ∧
      m.configPath ∈ fs2.dirs := by
  have hex : fileExists fs (m.configPath, "settings-2.json") = false := by
    cases hfe : fileExists fs (m.configPath, "settings-2.json") with
    | false => rfl
    | true =>
      exfalso
      have hmem := mem_listdir_of_fileExists fs m.configPath "settings-2.json" hfe
      have hcand : "settings-2.json" ∈ Manager.candidateNames fs m.configPath :=
        List.mem_filter.mpr ⟨hmem, rfl⟩
      rw [h] at hcand
      cases hcand
  refine ⟨BaseSettings.save v2Schema settingsV2Default fs (m.configPath, "settings-2.json"),
    ?_, ?_, ?_⟩
  · rw [manager_load_of_no_candidates v2Schema m fs h]
    show (let r := Manager.load_from_file v2Schema fs (m.configPath, "settings-2.json")
          Except.ok ({ m with cache := some r.fst }, r.snd.fst)) = _
    unfold Manager.load_from_file
    rw [if_neg (by simp [hex])]
    rfl
  · have hex1 : fileExists
        (if m.configPath ∈ fs.dirs then fs
         else { fs with dirs := fs.dirs ++ [m.configPath] })
        (m.configPath, "settings-2.json") = false := by
      by_cases hd : m.configPath ∈ fs.dirs
      · rw [if_pos hd]; exact hex
      · rw [if_neg hd]; exact hex
    unfold BaseSettings.save
    exact fileGetOpt_write_absent _ _ _ hex1
  · exact mem_dirs_save v2Schema settingsV2Default fs (m.configPath, "settings-2.json")

/-- Claim C8, witness: an empty directory bootstraps the canonical
default-valued `settings-2.json`. -/
theorem claim_c8_witness :
    Manager.candidateNames { files := [], dirs := ["cfg"] } "cfg" = [] ∧
    (∃ fs2, Manager.load v2Schema { configPath := "cfg", cache := none }
        { files := [], dirs := ["cfg"] }
        = .ok ({ configPath := "cfg", cache := some settingsV2Default }, fs2) ∧
      fileGetOpt fs2 ("cfg", "settings-2.json")
        = some (.json [("VERSION", 2), ("new_variable", 1), ("new_variable_dosh", 1)]) ∧
      "cfg" ∈ fs2.dirs) :=
  ⟨rfl, claim_c8 { configPath := "cfg", cache := none } { files := [], dirs := ["cfg"] } rfl⟩

/-- Claim C10: if the config directory holds any file whose name starts
with `settings-` but in which `settings-` is nowhere immediately followed
by a digit, `re.search("settings-(\\d+)", name)` returns `None` for it and
`.group(1)` raises `AttributeError` out of the candidate sort, so
`Manager.load` raises rather than skipping the file or completing. -/
theorem claim_c10 (s : Schema) (m : Manager) (fs : FS) (n : String)
    (h1 : n ∈ listdir fs m.configPath) (h2 : startsWithName n = true)
    (h3 : searchVersion n.toList = none) :
    Manager.load s m fs = .error .attributeError := by
  have hmem : n ∈ Manager.candidateNames fs m.configPath :=
    List.mem_filter.mpr ⟨h1, h2⟩
  unfold Manager.load
  rw [mapKeys_eq_none_of_mem _ n hmem h3]

/-- Claim C10, witness: a directory containing `settings-x.json` makes
`Manager.load` raise `AttributeError`. -/
theorem claim_c10_witness :
    ("settings-x.json" ∈ listdir
      { files := [(("cfg", "settings-x.json"), FileContent.json [("VERSION", 2)])],
        dirs := ["cfg"] } "cfg") ∧
    startsWithName "settings-x.json" = true ∧
    searchVersion "settings-x.json".toList = none ∧
    Manager.load v2Schema { configPath := "cfg", cache := none }
      { files := [(("cfg", "settings-x.json"), FileContent.json [("VERSION", 2)])],
        dirs := ["cfg"] }
      = .error .attributeError :=
  ⟨by decide, rfl, rfl,
   claim_c10 v2Schema { configPath := "cfg", cache := none }
     { files := [(("cfg", "settings-x.json"), FileContent.json [("VERSION", 2)])],
       dirs := ["cfg"] }
     "settings-x.json" (by decide) rfl rfl⟩

end SettingsMagic
